import Mathlib

/-!
Shallow embedding of the qv-ollama-sdk tool-calling orchestration layer
(`src/qv_ollama_sdk/domain/models.py` and
`src/qv_ollama_sdk/services/ollama_conversation_service.py`) in Lean 4,
together with theorems settling the frozen claims about it.

Python dictionaries are modelled as insertion-ordered association lists,
Python exceptions as `Except String`, and the external `ollama.chat`
backend as an explicit stub function indexed by the number of calls made
so far; every request issued is recorded in a log so that theorems can
speak about how many requests were sent and with which fields.
-/

namespace QvOllama

/-- A Python runtime value, as far as the claims need it.  `float` carries
the source text it was parsed from: no claim depends on floating-point
arithmetic, only on whether the parse succeeds. -/
inductive PyVal where
  | none
  | bool (b : Bool)
  | int (n : Int)
  | float (src : String)
  | str (s : String)
  | list (xs : List PyVal)
  | dict (xs : List (String × PyVal))
  deriving Repr

/-- A single-quote character as a string (used inside Python error texts). -/
def sq : String := ⟨[Char.ofNat 39]⟩

/- ## String helpers (Python `in`, `str.strip`, `re` on the think tags) -/

/-- Index of the first occurrence of `pat` in `s`, if any
(Python `s.find(pat)` when non-negative). -/
def findSub (pat : List Char) : List Char → Option Nat
  | [] => if pat = [] then some 0 else Option.none
  | c :: rest =>
      if pat.isPrefixOf (c :: rest) then some 0
      else (findSub pat rest).map (· + 1)

/-- Python `pat in s` on character lists. -/
def containsSub (pat s : List Char) : Bool :=
  (findSub pat s).isSome

/-- Python `pat in s` on strings. -/
def strContains (s pat : String) : Bool :=
  containsSub pat.toList s.toList

/-- Python `str.strip()`: drop whitespace from both ends. -/
def pyStrip (s : List Char) : List Char :=
  ((s.dropWhile Char.isWhitespace).reverse.dropWhile Char.isWhitespace).reverse

/-- `str.strip()` on `String`. -/
def pyStripStr (s : String) : String :=
  ⟨pyStrip s.toList⟩

/-- Python `str.lower()` restricted to ASCII text, character by
character. -/
def strToLower (s : String) : String :=
  ⟨s.toList.map Char.toLower⟩

def thinkOpen : List Char := "<think>".toList

def thinkClose : List Char := "</think>".toList

/-- `re.search(r'<think>(.*?)</think>', s, re.DOTALL)`: the match starts at
the first occurrence of `<think>`; the lazy group ends at the first
`</think>` after it.  Returns `(i, j)` where `i` is the index of the match
start and `j` the length of group 1, or `none` when there is no match. -/
def searchThink (s : List Char) : Option (Nat × Nat) :=
  (findSub thinkOpen s).bind (fun i =>
    (findSub thinkClose (s.drop (i + 7))).map (fun j => (i, j)))

theorem findSub_bound (pat : List Char) (hpat : pat ≠ []) :
    ∀ (s : List Char) (i : Nat), findSub pat s = some i → i < s.length := by
  intro s
  induction s with
  | nil =>
      intro i h
      simp [findSub, hpat] at h
  | cons c rest ih =>
      intro i h
      simp only [findSub] at h
      by_cases hp : pat.isPrefixOf (c :: rest)
      · rw [if_pos hp] at h
        simp at h
        subst h
        simp
      · rw [if_neg hp] at h
        rcases hmap : findSub pat rest with _ | i0
        · rw [hmap] at h; simp at h
        · rw [hmap] at h
          simp at h
          subst h
          have := ih i0 hmap
          simp
          omega

theorem searchThink_bound (s : List Char) (i j : Nat)
    (h : searchThink s = some (i, j)) : i < s.length := by
  simp only [searchThink, Option.bind_eq_some] at h
  obtain ⟨i0, hi0, h2⟩ := h
  simp only [Option.map_eq_some'] at h2
  obtain ⟨j0, _, hj0⟩ := h2
  have hb := findSub_bound thinkOpen (by decide) s i0 hi0
  have : i0 = i := by
    have := congrArg Prod.fst hj0
    simpa using this
  omega

/-- Fueled worker for `re.sub`: each iteration removes one matched span
of at least 15 characters, so `s.length` initial fuel can never run out
before the matches do; fuel only makes the recursion structural. -/
def removeThinkSpansGo : Nat → List Char → List Char
  | 0, s => s
  | fuel + 1, s =>
      match searchThink s with
      | Option.none => s
      | some (i, j) =>
          s.take i ++ removeThinkSpansGo fuel (s.drop (i + 7 + j + 8))

/-- `re.sub(r'<think>.*?</think>', '', s, flags=re.DOTALL)`: remove every
non-overlapping lazy match, scanning left to right. -/
def removeThinkSpans (s : List Char) : List Char :=
  removeThinkSpansGo s.length s

/- ## Python-style predicates on strings -/

/-- Python `str.isdigit()` restricted to ASCII text: non-empty and every
character is a decimal digit. -/
def pyIsDigit (s : String) : Bool :=
  !s.isEmpty && s.toList.all (fun c => c.isDigit)

/-- `int(s)` for a digit-only string. -/
def digitsToInt (s : String) : Int :=
  (s.toList.foldl (fun acc c => acc * 10 + (c.toNat - 48)) 0 : Nat)

/-- Whether CPython `float(s)` succeeds: optional surrounding whitespace,
optional sign, then either `inf`/`infinity`/`nan` (case-insensitive) or a
decimal literal `digits[.digits][e[sign]digits]` / `.digits[e[sign]digits]`
(digit-group underscores are not modelled; no claim depends on them). -/
def floatBody (cs : List Char) : Bool :=
  let lower := cs.map Char.toLower
  if lower = "inf".toList || lower = "infinity".toList || lower = "nan".toList then
    true
  else
    let mant := fun (m : List Char) =>
      let intPart := m.takeWhile Char.isDigit
      let rest := m.dropWhile Char.isDigit
      match rest with
      | [] => !intPart.isEmpty
      | c :: rest2 =>
          if c = '.' then
            let fracPart := rest2.takeWhile Char.isDigit
            let rest3 := rest2.dropWhile Char.isDigit
            rest3 = [] && (!intPart.isEmpty || !fracPart.isEmpty)
          else
            false
    match findSub ['e'] (cs.map Char.toLower) with
    | Option.none => mant cs
    | some k =>
        let m := cs.take k
        let e := cs.drop (k + 1)
        let e2 := if e.head? = some '+' || e.head? = some '-'
                  then e.tail else e
        mant m && !e2.isEmpty && e2.all Char.isDigit

/-- Whether `float(s)` succeeds on the whole string. -/
def pyFloatAccepts (s : String) : Bool :=
  let cs := (pyStrip s.toList)
  let cs2 := if cs.head? = some '+' || cs.head? = some '-'
             then cs.tail else cs
  !cs2.isEmpty && floatBody cs2

/- ## Python truthiness and `str()` -/

/-- Truthiness of an optional string (`None` and `""` are falsy). -/
def pyTruthyStrOpt : Option String → Bool
  | some s => !s.isEmpty
  | Option.none => false

/-- Truthiness of an optional list (`None` and `[]` are falsy). -/
def pyTruthyListOpt {α : Type} : Option (List α) → Bool
  | some l => !l.isEmpty
  | Option.none => false

/-- Python `str()` on the scalar values the claims stringify.  Container
values are not stringified by any claim; their display text is summarised
by a placeholder. -/
def pyStr : PyVal → String
  | PyVal.none => "None"
  | PyVal.bool true => "True"
  | PyVal.bool false => "False"
  | PyVal.int n => toString n
  | PyVal.float src => src
  | PyVal.str s => s
  | PyVal.list _ => "<list-display>"
  | PyVal.dict _ => "<dict-display>"

/-- Python dict assignment `d[k] = v` on an insertion-ordered association
list: overwrite in place when the key exists, append otherwise. -/
def dictSet {α : Type} (d : List (String × α)) (k : String) (v : α) :
    List (String × α) :=
  match d with
  | [] => [(k, v)]
  | (k2, v2) :: rest =>
      if k2 = k then (k, v) :: rest else (k2, v2) :: dictSet rest k v

/- ## Domain models (`domain/models.py`) -/

/-- `MessageRole` enumeration. -/
inductive MessageRole where
  | system
  | user
  | assistant
  | tool
  deriving Repr, DecidableEq

/-- The `.value` of a `MessageRole` member. -/
def MessageRole.value : MessageRole → String
  | MessageRole.system => "system"
  | MessageRole.user => "user"
  | MessageRole.assistant => "assistant"
  | MessageRole.tool => "tool"

/-- `Function`: a function definition inside a tool call. -/
structure Function where
  name : String
  arguments : List (String × PyVal)
  deriving Repr

/-- `ToolCall`: a tool call made by the model. -/
structure ToolCall where
  function : Function
  id : Option String := Option.none
  deriving Repr

/-- `ToolResult`: the result of executing a tool call.  `result` is `Any`
in the source (with `None` for failures), modelled as `PyVal`. -/
structure ToolResult where
  tool_call_id : Option String
  function_name : String
  result : PyVal
  error : Option String := Option.none
  deriving Repr

/-- A registered Python callable: receives the (coerced) keyword-argument
map; a raised exception of any kind (wrong arity, type failure, error
raised by the body) is an `Except.error` carrying `str(e)`. -/
def Callable : Type := List (String × PyVal) → Except String PyVal

/-- A Python function value together with its `__name__`. -/
structure PyFunc where
  name : String
  call : Callable

/-- An MCP executor: its `execute_tool_call` method either returns a value
or raises (`Except.error` carrying `str(e)`). -/
def McpExecutor : Type := ToolCall → Except String PyVal

/-- `ToolRegistry`: name→callable map plus MCP executors. -/
structure ToolRegistry where
  functions : List (String × Callable) := []
  mcp_executors : List (String × McpExecutor) := []

/-- `ToolRegistry.register`: index by the callable's declared name; a dict
assignment, so the last registration for a name wins. -/
def ToolRegistry.register (reg : ToolRegistry) (func : PyFunc) : ToolRegistry :=
  { reg with functions := dictSet reg.functions func.name func.call }

/-- `ToolRegistry.get_function`. -/
def ToolRegistry.get_function (reg : ToolRegistry) (name : String) :
    Option Callable :=
  reg.functions.lookup name

/-- Per-value argument coercion inside `execute_tool_call`: a digit-only
string becomes `int(value)`; any other string is attempted as
`float(value)` and on failure left unchanged; non-strings pass through. -/
def castValue (v : PyVal) : PyVal :=
  match v with
  | PyVal.str s =>
      if pyIsDigit s then PyVal.int (digitsToInt s)
      else if pyFloatAccepts s then PyVal.float s
      else PyVal.str s
  | v2 => v2

/-- The `casted_args` loop of `execute_tool_call`. -/
def castArgs (args : List (String × PyVal)) : List (String × PyVal) :=
  args.map (fun kv => (kv.1, castValue kv.2))

/-- The Python `NameError` text raised by the MCP success branch, which
reads the undefined variable `result_container`. -/
def resultContainerNameError : String :=
  "name " ++ sq ++ "result_container" ++ sq ++ " is not defined"

/-- `ToolRegistry.execute_tool_call`.  The MCP branch mirrors the source
faithfully: after `executor.execute_tool_call(tool_call)` succeeds, the
return expression evaluates the undefined name `result_container`, so a
`NameError` is raised and caught by the surrounding `except`, producing an
error result even on executor success. -/
def ToolRegistry.execute_tool_call (reg : ToolRegistry) (tool_call : ToolCall) :
    ToolResult :=
  let function_name := tool_call.function.name
  match reg.mcp_executors.lookup function_name with
  | some executor =>
      match executor tool_call with
      | Except.ok _ =>
          { tool_call_id := tool_call.id
            function_name := function_name
            result := PyVal.none
            error := some ("MCP execution failed: " ++ resultContainerNameError) }
      | Except.error e =>
          { tool_call_id := tool_call.id
            function_name := function_name
            result := PyVal.none
            error := some ("MCP execution failed: " ++ e) }
  | Option.none =>
      match reg.get_function function_name with
      | Option.none =>
          { tool_call_id := tool_call.id
            function_name := function_name
            result := PyVal.none
            error := some ("Function " ++ sq ++ function_name ++ sq ++
              " not found in registry") }
      | some function =>
          match function (castArgs tool_call.function.arguments) with
          | Except.ok result =>
              { tool_call_id := tool_call.id
                function_name := function_name
                result := result
                error := Option.none }
          | Except.error e =>
              { tool_call_id := tool_call.id
                function_name := function_name
                result := PyVal.none
                error := some e }

/-- `Message`.  The generated `id`/`created_at` fields are omitted: they
are fresh nondeterministic identifiers no claim depends on. -/
structure Message where
  role : MessageRole
  content : String
  metadata : List (String × PyVal) := []
  tool_calls : Option (List ToolCall) := Option.none
  tool_call_id : Option String := Option.none
  deriving Repr

/-- The dict built for one `ToolCall` inside `Message.to_dict`. -/
def ToolCall.to_dict_entry (tc : ToolCall) : PyVal :=
  PyVal.dict [("function", PyVal.dict
    [("name", PyVal.str tc.function.name),
     ("arguments", PyVal.dict tc.function.arguments)])]

/-- `Message.to_dict`: the Ollama API dict; `tool_calls` added when
truthy, `tool_call_id` added only for tool messages with a truthy id. -/
def Message.to_dict (m : Message) : List (String × PyVal) :=
  [("role", PyVal.str m.role.value), ("content", PyVal.str m.content)]
  ++ (if pyTruthyListOpt m.tool_calls then
        [("tool_calls", PyVal.list ((m.tool_calls.getD []).map
          ToolCall.to_dict_entry))]
      else [])
  ++ (if m.role = MessageRole.tool && pyTruthyStrOpt m.tool_call_id then
        [("tool_call_id", PyVal.str (m.tool_call_id.getD ""))]
      else [])

/-- `Conversation`.  `id`, timestamps and metadata are omitted: no claim
depends on them (`updated_at` is bumped on every mutation but never
read). -/
structure Conversation where
  model_name : String := "llama3"
  messages : List Message := []
  deriving Repr

/-- `Conversation.add_system_message`; mutation modelled by returning the
appended message together with the updated conversation. -/
def Conversation.add_system_message (c : Conversation) (content : String) :
    Message × Conversation :=
  let message : Message := { role := MessageRole.system, content := content }
  (message, { c with messages := c.messages ++ [message] })

/-- `Conversation.add_user_message`. -/
def Conversation.add_user_message (c : Conversation) (content : String) :
    Message × Conversation :=
  let message : Message := { role := MessageRole.user, content := content }
  (message, { c with messages := c.messages ++ [message] })

/-- `Conversation.add_assistant_message`. -/
def Conversation.add_assistant_message (c : Conversation) (content : String) :
    Message × Conversation :=
  let message : Message := { role := MessageRole.assistant, content := content }
  (message, { c with messages := c.messages ++ [message] })

/-- `Conversation.add_tool_message`. -/
def Conversation.add_tool_message (c : Conversation)
    (content tool_call_id function_name : String) : Message × Conversation :=
  let message : Message :=
    { role := MessageRole.tool
      content := content
      tool_call_id := some tool_call_id
      metadata := [("function_name", PyVal.str function_name)] }
  (message, { c with messages := c.messages ++ [message] })

/-- `Conversation.add_tool_results`: one tool message per result; content
is the stringified result, or the error sentinel when `result.error` is
truthy; `tool_call_id` is `result.tool_call_id or ""`. -/
def Conversation.add_tool_results (c : Conversation)
    (tool_results : List ToolResult) : List Message × Conversation :=
  match tool_results with
  | [] => ([], c)
  | result :: rest =>
      let content :=
        if pyTruthyStrOpt result.error then
          "Error executing " ++ result.function_name ++ ": " ++
            (result.error.getD "")
        else
          pyStr result.result
      let mc := c.add_tool_message content (result.tool_call_id.getD "")
        result.function_name
      let rec2 := mc.2.add_tool_results rest
      (mc.1 :: rec2.1, rec2.2)

/-- `Conversation.get_message_history`. -/
def Conversation.get_message_history (c : Conversation) :
    List (List (String × PyVal)) :=
  c.messages.map Message.to_dict

/-- `ModelParameters`: the `_parameters` dict of explicitly set keys, in
insertion order. -/
abbrev ModelParameters : Type := List (String × PyVal)

/-- `ModelParameters.to_dict`: rebuild the dict with `max_tokens` renamed
to `num_predict`; every other key passes through. -/
def ModelParameters.to_dict (p : ModelParameters) : List (String × PyVal) :=
  p.foldl (fun acc kv =>
    dictSet acc (if kv.1 = "max_tokens" then "num_predict" else kv.1) kv.2) []

/-- `ModelParameters.__getattr__`: return the stored value, or raise
`AttributeError` for an unset key. -/
def ModelParameters.getattr (p : ModelParameters) (name : String) :
    Except String PyVal :=
  match List.lookup name p with
  | some v => Except.ok v
  | Option.none =>
      Except.error (sq ++ "ModelParameters" ++ sq ++
        " object has no attribute " ++ sq ++ name ++ sq)

/-- Python `hasattr(parameters, name)` for a `ModelParameters` value. -/
def ModelParameters.hasattr (p : ModelParameters) (name : String) : Bool :=
  (List.lookup name p).isSome

/-- `GenerationResponse` (generated `id`/`created_at` again omitted). -/
structure GenerationResponse where
  model_name : String
  content : String
  finish_reason : Option PyVal := Option.none
  usage : PyVal := PyVal.dict []
  tool_calls : Option (List ToolCall) := Option.none
  tool_results : Option (List ToolResult) := Option.none
  thinking : Option String := Option.none
  deriving Repr

/- ## Backend interface (`ollama.chat`) and response shapes -/

/-- A raw tool call as it appears in a backend reply. -/
structure RawToolCall where
  name : String
  arguments : List (String × PyVal)
  id : Option String := Option.none
  deriving Repr

/-- The `message` dict of a backend reply.  `none` models a missing key; a
`thinking` key present with value `None` behaves downstream exactly like a
missing key (both fail the truthiness test) and is merged into `none`. -/
structure ChatMessage where
  content : Option String := Option.none
  thinking : Option String := Option.none
  tool_calls : Option (List RawToolCall) := Option.none
  deriving Repr

/-- A backend reply (or one streamed chunk): every field optional. -/
structure ChatResponse where
  message : Option ChatMessage := Option.none
  done : Option PyVal := Option.none
  prompt_eval_count : Option PyVal := Option.none
  deriving Repr

/-- The keyword arguments of one `ollama.chat` request.  `tools` keeps the
names of the supplied callables (the backend is external, so only the
presence and identity of the list matter). -/
structure ChatKwargs where
  model : String
  messages : List (List (String × PyVal))
  options : List (String × PyVal)
  tools : Option (List String) := Option.none
  think : Option PyVal := Option.none
  stream : Bool := false
  deriving Repr

/-- A stubbed synchronous backend: maps the index of the call (how many
requests were issued before it) and the request to a reply or a raised
exception. -/
def Backend : Type := Nat → ChatKwargs → Except String ChatResponse

/-- A stubbed streaming backend: a reply is a chunk sequence; an error
models an exception raised at call time or at the first chunk. -/
def BackendS : Type := Nat → ChatKwargs → Except String (List ChatResponse)

/-- Issue one `ollama.chat` call against the stub and record the request
in the log. -/
def ollamaChat (bk : Backend) (log : List ChatKwargs) (kw : ChatKwargs) :
    Except String ChatResponse × List ChatKwargs :=
  (bk log.length kw, log ++ [kw])

/-- Issue one streaming `ollama.chat` call and record the request. -/
def ollamaChatStream (bk : BackendS) (log : List ChatKwargs) (kw : ChatKwargs) :
    Except String (List ChatResponse) × List ChatKwargs :=
  (bk log.length kw, log ++ [kw])

/-- `chat_kwargs` construction shared by `generate_response` (stream :=
false) and `stream_response` (stream := true): `tools` added when the
parameter is truthy; `think` added when `parameters` is given and has a
`think` attribute. -/
def buildChatKwargs (conversation : Conversation)
    (parameters : Option ModelParameters) (tools : Option (List PyFunc))
    (stream : Bool) : ChatKwargs :=
  let params := match parameters with
    | some p => ModelParameters.to_dict p
    | Option.none => ModelParameters.to_dict []
  { model := conversation.model_name
    messages := conversation.get_message_history
    options := params
    tools := if pyTruthyListOpt tools then
        some ((tools.getD []).map PyFunc.name)
      else Option.none
    think := match parameters with
      | some p => List.lookup "think" p
      | Option.none => Option.none
    stream := stream }

/-- `del chat_kwargs["tools"]`. -/
def ChatKwargs.noTools (kw : ChatKwargs) : ChatKwargs :=
  { kw with tools := Option.none }

/-- `del chat_kwargs["think"]`. -/
def ChatKwargs.noThink (kw : ChatKwargs) : ChatKwargs :=
  { kw with think := Option.none }

/- ## Decoding a backend reply -/

/-- Lines 103–116 of the service: extract `<think>`-delimited text when a
regex match exists, use it as thinking only when the dedicated field is
falsy, and strip every delimited span (plus surrounding whitespace) from
the content. -/
def decodeThink (content : String) (thinking : Option String) :
    String × Option String :=
  if strContains content "<think>" && strContains content "</think>" then
    match searchThink content.toList with
    | some (i, j) =>
        let group1 : List Char := (content.toList.drop (i + 7)).take j
        let thinking2 :=
          if pyTruthyStrOpt thinking then thinking
          else some (String.mk (pyStrip group1))
        (String.mk (pyStrip (removeThinkSpans content.toList)), thinking2)
    | Option.none => (content, thinking)
  else (content, thinking)

/-- Decode one backend reply (or streamed chunk) into a
`GenerationResponse`: missing keys become empty/absent values. -/
def decodeResponse (model_name : String) (response : ChatResponse) :
    GenerationResponse :=
  let content := (response.message.bind ChatMessage.content).getD ""
  let thinking0 := response.message.bind ChatMessage.thinking
  let ct := decodeThink content thinking0
  let tool_calls :=
    match response.message.bind ChatMessage.tool_calls with
    | some tcs => some (tcs.map (fun tc =>
        { function := { name := tc.name, arguments := tc.arguments }
          id := tc.id : ToolCall }))
    | Option.none => Option.none
  { model_name := model_name
    content := ct.1
    finish_reason := response.done
    usage := response.prompt_eval_count.getD (PyVal.dict [])
    tool_calls := tool_calls
    tool_results := Option.none
    thinking := ct.2 }

/- ## `OllamaConversationService.generate_response` with fallback ladder -/

/-- `generate_response`: build the request, try it, and on failure walk
the capability-fallback ladder of lines 61–98; returns the decoded
response (or the propagated exception) plus the request log. -/
def OllamaConversationService.generate_response (bk : Backend)
    (log : List ChatKwargs) (conversation : Conversation)
    (parameters : Option ModelParameters) (tools : Option (List PyFunc)) :
    Except String GenerationResponse × List ChatKwargs :=
  let chat_kwargs := buildChatKwargs conversation parameters tools false
  let r1 := ollamaChat bk log chat_kwargs
  match r1.1 with
  | Except.ok response =>
      (Except.ok (decodeResponse conversation.model_name response), r1.2)
  | Except.error e =>
      let error_msg := strToLower e
      let tools_unsupported := pyTruthyListOpt tools &&
        (strContains error_msg "tools" ||
         strContains error_msg "does not support tools")
      let thinking_unsupported := chat_kwargs.think.isSome &&
        (strContains error_msg "think" || strContains error_msg "thinking")
      if tools_unsupported && thinking_unsupported then
        let fb := chat_kwargs.noTools.noThink
        let r2 := ollamaChat bk r1.2 fb
        match r2.1 with
        | Except.ok response =>
            (Except.ok (decodeResponse conversation.model_name response), r2.2)
        | Except.error e2 => (Except.error e2, r2.2)
      else if tools_unsupported then
        let fb := chat_kwargs.noTools
        let r2 := ollamaChat bk r1.2 fb
        match r2.1 with
        | Except.ok response =>
            (Except.ok (decodeResponse conversation.model_name response), r2.2)
        | Except.error e2 =>
            if fb.think.isSome then
              let fb2 := fb.noThink
              let r3 := ollamaChat bk r2.2 fb2
              match r3.1 with
              | Except.ok response =>
                  (Except.ok (decodeResponse conversation.model_name response),
                   r3.2)
              | Except.error e3 => (Except.error e3, r3.2)
            else (Except.error e2, r2.2)
      else if thinking_unsupported then
        let fb := chat_kwargs.noThink
        let r2 := ollamaChat bk r1.2 fb
        match r2.1 with
        | Except.ok response =>
            (Except.ok (decodeResponse conversation.model_name response), r2.2)
        | Except.error e2 => (Except.error e2, r2.2)
      else (Except.error e, r1.2)

/-- The tool-execution loop the orchestration service runs over the tool
calls of the first reply: one independent `execute_tool_call` per call, in
order. -/
def executeAllToolCalls (reg : ToolRegistry) (tcs : List ToolCall) :
    List ToolResult :=
  tcs.map reg.execute_tool_call

/-- The registry built fresh from the caller-supplied tool list. -/
def buildRegistry (tools : List PyFunc) : ToolRegistry :=
  tools.foldl ToolRegistry.register {}

/-- `generate_response_with_tool_execution`.  The third component of the
result is the caller's conversation as left behind by the call:
`temp_conversation` is created from `conversation.messages.copy()`, so
every append inside the function targets the working copy and the
caller's object is returned unchanged.  In the source the assistant
message is appended by `add_assistant_message` and its `tool_calls` field
is then set on the returned (same, freshly created) object; the net
effect embedded here is one appended assistant message carrying the
content and the raw tool calls. -/
def OllamaConversationService.generate_response_with_tool_execution
    (bk : Backend) (log : List ChatKwargs) (conversation : Conversation)
    (parameters : Option ModelParameters) (tools : Option (List PyFunc))
    (auto_execute : Bool) :
    Except String GenerationResponse × List ChatKwargs × Conversation :=
  let r1 := OllamaConversationService.generate_response bk log conversation
    parameters tools
  match r1.1 with
  | Except.error e => (Except.error e, r1.2, conversation)
  | Except.ok initial_response =>
      if !pyTruthyListOpt initial_response.tool_calls || !auto_execute ||
          !pyTruthyListOpt tools then
        (Except.ok initial_response, r1.2, conversation)
      else
        let tool_registry := buildRegistry (tools.getD [])
        let tool_results := executeAllToolCalls tool_registry
          (initial_response.tool_calls.getD [])
        let temp0 : Conversation :=
          { model_name := conversation.model_name
            messages := conversation.messages }
        let assistant_msg : Message :=
          { role := MessageRole.assistant
            content := initial_response.content
            tool_calls := initial_response.tool_calls }
        let temp1 : Conversation :=
          { temp0 with messages := temp0.messages ++ [assistant_msg] }
        let temp2 := (temp1.add_tool_results tool_results).2
        let r2 := OllamaConversationService.generate_response bk r1.2 temp2
          parameters Option.none
        match r2.1 with
        | Except.error e => (Except.error e, r2.2, conversation)
        | Except.ok final_response =>
            (Except.ok
              { model_name := conversation.model_name
                content := final_response.content
                finish_reason := final_response.finish_reason
                usage := final_response.usage
                tool_calls := initial_response.tool_calls
                tool_results := some tool_results
                thinking := Option.none },
             r2.2, conversation)

/- ## Streaming -/

/-- The single recursive invocation of `_create_stream_with_fallback`
(line 274) always receives the request with `tools` already deleted, so
one level down `"tools" in kwargs` is false and only the thinking branch
of the ladder can apply.  This is that unrolled level: try the request
(testing the first chunk); on failure retry without `think` when the
failure text flags thinking, else re-raise. -/
def createStreamFallbackNoTools (bk : BackendS) (log : List ChatKwargs)
    (kwargs : ChatKwargs) :
    Except String (List ChatResponse) × List ChatKwargs :=
  let r1 := ollamaChatStream bk log kwargs
  let afterError := fun (emsg : String) (log2 : List ChatKwargs) =>
    let error_msg := strToLower emsg
    let thinking_unsupported := kwargs.think.isSome &&
      (strContains error_msg "think" || strContains error_msg "thinking")
    if thinking_unsupported then
      ollamaChatStream bk log2 kwargs.noThink
    else (Except.error emsg, log2)
  match r1.1 with
  | Except.ok chunks =>
      if chunks.isEmpty then afterError "" r1.2 else (Except.ok chunks, r1.2)
  | Except.error e => afterError e r1.2

/-- `_create_stream_with_fallback` (lines 241–288).  An empty chunk
sequence makes `next(stream_iter)` raise `StopIteration` (whose `str` is
empty), which the handler treats like any other failure; no claim
exercises that corner.  The tools-only branch delegates to the unrolled
recursion level above. -/
def createStreamWithFallback (bk : BackendS) (log : List ChatKwargs)
    (kwargs : ChatKwargs) :
    Except String (List ChatResponse) × List ChatKwargs :=
  let r1 := ollamaChatStream bk log kwargs
  let afterError := fun (emsg : String) (log2 : List ChatKwargs) =>
    let error_msg := strToLower emsg
    let tools_unsupported := kwargs.tools.isSome &&
      (strContains error_msg "tools" ||
       strContains error_msg "does not support tools")
    let thinking_unsupported := kwargs.think.isSome &&
      (strContains error_msg "think" || strContains error_msg "thinking")
    if tools_unsupported && thinking_unsupported then
      ollamaChatStream bk log2 kwargs.noTools.noThink
    else if tools_unsupported then
      let fb := kwargs.noTools
      let r2 := createStreamFallbackNoTools bk log2 fb
      match r2.1 with
      | Except.ok chunks => (Except.ok chunks, r2.2)
      | Except.error _ =>
          if fb.think.isSome then
            ollamaChatStream bk r2.2 fb.noThink
          else (r2.1, r2.2)
    else if thinking_unsupported then
      ollamaChatStream bk log2 kwargs.noThink
    else (Except.error emsg, log2)
  match r1.1 with
  | Except.ok chunks =>
      if chunks.isEmpty then afterError "" r1.2 else (Except.ok chunks, r1.2)
  | Except.error e => afterError e r1.2

/-- `stream_response`: the chunk-wise decoded stream as the list of
yielded responses together with the request log. -/
def OllamaConversationService.stream_response (bk : BackendS)
    (log : List ChatKwargs) (conversation : Conversation)
    (parameters : Option ModelParameters) (tools : Option (List PyFunc)) :
    Except String (List GenerationResponse) × List ChatKwargs :=
  let chat_kwargs := buildChatKwargs conversation parameters tools true
  let r := createStreamWithFallback bk log chat_kwargs
  match r.1 with
  | Except.error e => (Except.error e, r.2)
  | Except.ok chunks =>
      (Except.ok (chunks.map (decodeResponse conversation.model_name)), r.2)

/-- `stream_response_with_tool_execution`: the fully drained yield
sequence (initial chunks, one per-tool result response, final chunks),
the request log, and the caller's conversation left unchanged (the
appends target the working copy built from `messages.copy()`). -/
def OllamaConversationService.stream_response_with_tool_execution
    (bk : BackendS) (log : List ChatKwargs) (conversation : Conversation)
    (parameters : Option ModelParameters) (tools : Option (List PyFunc))
    (auto_execute : Bool) :
    Except String (List GenerationResponse) × List ChatKwargs × Conversation :=
  let r1 := OllamaConversationService.stream_response bk log conversation
    parameters tools
  match r1.1 with
  | Except.error e => (Except.error e, r1.2, conversation)
  | Except.ok chunks =>
      let initial_content := String.join (chunks.map GenerationResponse.content)
      let collected_tool_calls := chunks.foldl (fun acc c =>
        if pyTruthyListOpt c.tool_calls then acc ++ c.tool_calls.getD []
        else acc) []
      if collected_tool_calls.isEmpty || !auto_execute ||
          !pyTruthyListOpt tools then
        (Except.ok chunks, r1.2, conversation)
      else
        let tool_registry := buildRegistry (tools.getD [])
        let tool_results := executeAllToolCalls tool_registry
          collected_tool_calls
        let toolResultChunks := tool_results.map (fun result =>
          { model_name := conversation.model_name
            content := ""
            tool_results := some [result] : GenerationResponse })
        let temp0 : Conversation :=
          { model_name := conversation.model_name
            messages := conversation.messages }
        let assistant_msg : Message :=
          { role := MessageRole.assistant
            content := initial_content
            tool_calls := some collected_tool_calls }
        let temp1 : Conversation :=
          { temp0 with messages := temp0.messages ++ [assistant_msg] }
        let temp2 := (temp1.add_tool_results tool_results).2
        let r2 := OllamaConversationService.stream_response bk r1.2 temp2
          parameters Option.none
        match r2.1 with
        | Except.error e => (Except.error e, r2.2, conversation)
        | Except.ok final_chunks =>
            (Except.ok (chunks ++ toolResultChunks ++ final_chunks), r2.2,
             conversation)

/- ## Example tool callables used by concrete instances -/

/-- A Python `def add(a, b): return a + b` restricted to the value shapes
the claims feed it; anything else raises a `TypeError`-style failure. -/
def addTool : PyFunc :=
  { name := "add"
    call := fun args =>
      match List.lookup "a" args, List.lookup "b" args with
      | some (PyVal.int a), some (PyVal.int b) => Except.ok (PyVal.int (a + b))
      | _, _ => Except.error "unsupported operand type(s) for +" }

/-- A Python `def echo(x): return x`. -/
def echoTool : PyFunc :=
  { name := "echo"
    call := fun args =>
      match List.lookup "x" args with
      | some v => Except.ok v
      | Option.none => Except.error
          "echo() missing 1 required positional argument" }

/-- A tool whose body always raises. -/
def failTool : PyFunc :=
  { name := "boom"
    call := fun _ => Except.error "division by zero" }

/- ## Claim theorems -/

/-- C1: `execute_tool_call` is a total function into `ToolResult` — no
exception escapes it.  With no MCP executor under the name: an
unregistered function name produces the function-not-found error with
`result = None`; a callable that fails in any way produces a result with
`error` equal to the failure's description and `result = None`.  The
orchestration loop over a batch is an element-wise map, so the result at
one position never depends on the calls at the other positions. -/
theorem execute_tool_call_never_raises :
    (∀ (reg : ToolRegistry) (tc : ToolCall),
      reg.mcp_executors.lookup tc.function.name = Option.none →
      (reg.get_function tc.function.name = Option.none →
        reg.execute_tool_call tc =
          { tool_call_id := tc.id
            function_name := tc.function.name
            result := PyVal.none
            error := some ("Function " ++ sq ++ tc.function.name ++ sq ++
              " not found in registry") })
      ∧ (∀ (f : Callable) (e : String),
          reg.get_function tc.function.name = some f →
          f (castArgs tc.function.arguments) = Except.error e →
          reg.execute_tool_call tc =
            { tool_call_id := tc.id
              function_name := tc.function.name
              result := PyVal.none
              error := some e }))
    ∧ (∀ (reg : ToolRegistry) (pre post : List ToolCall) (tc : ToolCall),
        executeAllToolCalls reg (pre ++ tc :: post) =
          executeAllToolCalls reg pre ++
            reg.execute_tool_call tc :: executeAllToolCalls reg post) := by
  constructor
  · intro reg tc hmcp
    constructor
    · intro hfn
      simp [ToolRegistry.execute_tool_call, hmcp, hfn]
    · intro f e hfn hfail
      simp [ToolRegistry.execute_tool_call, hmcp, hfn, hfail]
  · intro reg pre post tc
    simp [executeAllToolCalls]

/-- C1 witness: an unregistered name, a failing call, and a succeeding
sibling in one batch. -/
theorem execute_tool_call_never_raises_witness :
    (buildRegistry [echoTool]).execute_tool_call
        ⟨⟨"missing", []⟩, some "t1"⟩ =
      { tool_call_id := some "t1"
        function_name := "missing"
        result := PyVal.none
        error := some ("Function " ++ sq ++ "missing" ++ sq ++
          " not found in registry") }
    ∧ (buildRegistry [failTool, echoTool]).execute_tool_call
        ⟨⟨"boom", []⟩, some "t2"⟩ =
      { tool_call_id := some "t2"
        function_name := "boom"
        result := PyVal.none
        error := some "division by zero" }
    ∧ executeAllToolCalls (buildRegistry [failTool, echoTool])
        ([⟨⟨"boom", []⟩, some "t2"⟩] ++
          ⟨⟨"echo", [("x", PyVal.int 2)]⟩, some "t3"⟩ :: []) =
      executeAllToolCalls (buildRegistry [failTool, echoTool])
          [⟨⟨"boom", []⟩, some "t2"⟩] ++
        (buildRegistry [failTool, echoTool]).execute_tool_call
            ⟨⟨"echo", [("x", PyVal.int 2)]⟩, some "t3"⟩ ::
          executeAllToolCalls (buildRegistry [failTool, echoTool]) [] := by
  refine ⟨?_, ?_, ?_⟩
  · exact (execute_tool_call_never_raises.1 (buildRegistry [echoTool])
      ⟨⟨"missing", []⟩, some "t1"⟩ rfl).1 rfl
  · exact (execute_tool_call_never_raises.1 (buildRegistry [failTool, echoTool])
      ⟨⟨"boom", []⟩, some "t2"⟩ rfl).2 failTool.call "division by zero" rfl rfl
  · exact execute_tool_call_never_raises.2 (buildRegistry [failTool, echoTool])
      [⟨⟨"boom", []⟩, some "t2"⟩] [] ⟨⟨"echo", [("x", PyVal.int 2)]⟩, some "t3"⟩

/-- C2: the coercion applied by `execute_tool_call` works per argument: a
digit-only string becomes the integer it spells, any other string becomes
a float when `float()` accepts it and stays the original string
otherwise, and non-string values pass through; concretely, the add
function on `{"a": "5", "b": "3"}` returns `8` and the identity function
on `{"x": "abc"}` returns `"abc"` unchanged. -/
theorem execute_tool_call_argument_coercion :
    (∀ s : String, pyIsDigit s = true →
      castValue (PyVal.str s) = PyVal.int (digitsToInt s))
    ∧ (∀ s : String, pyIsDigit s = false →
        castValue (PyVal.str s) =
          if pyFloatAccepts s then PyVal.float s else PyVal.str s)
    ∧ (∀ v : PyVal, (∀ s, v ≠ PyVal.str s) → castValue v = v)
    ∧ (∀ args : List (String × PyVal),
        castArgs args = args.map (fun kv => (kv.1, castValue kv.2)))
    ∧ (buildRegistry [addTool]).execute_tool_call
        ⟨⟨"add", [("a", PyVal.str "5"), ("b", PyVal.str "3")]⟩, some "c1"⟩ =
      { tool_call_id := some "c1"
        function_name := "add"
        result := PyVal.int 8
        error := Option.none }
    ∧ (buildRegistry [echoTool]).execute_tool_call
        ⟨⟨"echo", [("x", PyVal.str "abc")]⟩, some "c2"⟩ =
      { tool_call_id := some "c2"
        function_name := "echo"
        result := PyVal.str "abc"
        error := Option.none } := by
  refine ⟨?_, ?_, ?_, ?_, ?_, ?_⟩
  · intro s h
    simp [castValue, h]
  · intro s h
    simp [castValue, h]
  · intro v hv
    cases v <;> simp [castValue]
    exact absurd rfl (hv _)
  · intro args
    rfl
  · rfl
  · rfl

/-- C2 witness: the theorem's conditional parts instantiated at `"5"`,
`"abc"` and the integer `7`. -/
theorem execute_tool_call_argument_coercion_witness :
    castValue (PyVal.str "5") = PyVal.int (digitsToInt "5")
    ∧ castValue (PyVal.str "abc") =
        (if pyFloatAccepts "abc" then PyVal.float "abc" else PyVal.str "abc")
    ∧ castValue (PyVal.int 7) = PyVal.int 7 := by
  refine ⟨?_, ?_, ?_⟩
  · exact execute_tool_call_argument_coercion.1 "5" (by decide)
  · exact execute_tool_call_argument_coercion.2.1 "abc" (by decide)
  · exact execute_tool_call_argument_coercion.2.2.1 (PyVal.int 7)
      (fun s h => PyVal.noConfusion h)

/-- C10: whenever an MCP executor is registered for the called name,
`execute_tool_call` comes back with `result = None` and an error starting
with "MCP execution failed:"; in particular, when the executor succeeds
the error is the `NameError` text for the undefined `result_container`
variable; and the outcome is independent of the ordinary function
registry, so a Python function of the same name is never invoked. -/
theorem mcp_executor_result_container_bug :
    ∀ (reg : ToolRegistry) (tc : ToolCall) (ex : McpExecutor),
      reg.mcp_executors.lookup tc.function.name = some ex →
      ((∃ suffix, reg.execute_tool_call tc =
          { tool_call_id := tc.id
            function_name := tc.function.name
            result := PyVal.none
            error := some ("MCP execution failed: " ++ suffix) })
       ∧ (∀ v, ex tc = Except.ok v →
            reg.execute_tool_call tc =
              { tool_call_id := tc.id
                function_name := tc.function.name
                result := PyVal.none
                error := some ("MCP execution failed: " ++
                  resultContainerNameError) })
       ∧ reg.execute_tool_call tc =
           ToolRegistry.execute_tool_call
             { functions := [], mcp_executors := reg.mcp_executors } tc) := by
  intro reg tc ex hmcp
  refine ⟨?_, ?_, ?_⟩
  · rcases hex : ex tc with e | v
    · exact ⟨e, by simp [ToolRegistry.execute_tool_call, hmcp, hex]⟩
    · exact ⟨resultContainerNameError,
        by simp [ToolRegistry.execute_tool_call, hmcp, hex]⟩
  · intro v hex
    simp [ToolRegistry.execute_tool_call, hmcp, hex]
  · rcases hex : ex tc with e | v <;>
      simp [ToolRegistry.execute_tool_call, hmcp, hex]

/-- C10 witness: a succeeding MCP executor registered for "add" next to a
Python "add" function; the call still yields the NameError-based MCP
failure. -/
theorem mcp_executor_result_container_bug_witness :
    ToolRegistry.execute_tool_call
      { functions := [("add", addTool.call)]
        mcp_executors := [("add", fun _ => Except.ok (PyVal.int 42))] }
      ⟨⟨"add", [("a", PyVal.int 1), ("b", PyVal.int 2)]⟩, some "m1"⟩ =
      { tool_call_id := some "m1"
        function_name := "add"
        result := PyVal.none
        error := some ("MCP execution failed: " ++
          resultContainerNameError) } := by
  exact (mcp_executor_result_container_bug
    { functions := [("add", addTool.call)]
      mcp_executors := [("add", fun _ => Except.ok (PyVal.int 42))] }
    ⟨⟨"add", [("a", PyVal.int 1), ("b", PyVal.int 2)]⟩, some "m1"⟩
    (fun _ => Except.ok (PyVal.int 42)) rfl).2.1 (PyVal.int 42) rfl

/- ## Dict lemmas for `ModelParameters.to_dict` -/

theorem dictSet_not_mem {α : Type} (d : List (String × α)) (k : String)
    (v : α) (h : k ∉ d.map Prod.fst) : dictSet d k v = d ++ [(k, v)] := by
  induction d with
  | nil => rfl
  | cons kv rest ih =>
      simp only [List.map_cons, List.mem_cons] at h
      push_neg at h
      simp only [dictSet]
      rw [if_neg (by exact fun he => h.1 he.symm)]
      simp [ih h.2]

theorem foldl_dictSet_eq_map {α : Type} (g : String → String)
    (p : List (String × α)) :
    ∀ acc : List (String × α),
      ((acc ++ p.map (fun kv => (g kv.1, kv.2))).map Prod.fst).Nodup →
      p.foldl (fun a kv => dictSet a (g kv.1) kv.2) acc =
        acc ++ p.map (fun kv => (g kv.1, kv.2)) := by
  induction p with
  | nil => intro acc _; simp
  | cons kv rest ih =>
      intro acc hnd
      simp only [List.foldl_cons]
      have hmem : g kv.1 ∉ acc.map Prod.fst := by
        intro hmem
        simp only [List.map_append, List.nodup_append] at hnd
        exact hnd.2.2 hmem (by simp)
      rw [dictSet_not_mem acc (g kv.1) kv.2 hmem]
      have hnd2 : (((acc ++ [(g kv.1, kv.2)]) ++
          rest.map (fun kv2 => (g kv2.1, kv2.2))).map Prod.fst).Nodup := by
        have : (acc ++ [(g kv.1, kv.2)]) ++
            rest.map (fun kv2 => (g kv2.1, kv2.2)) =
            acc ++ (kv :: rest).map (fun kv2 => (g kv2.1, kv2.2)) := by
          simp
        rw [this]
        exact hnd
      have := ih (acc ++ [(g kv.1, kv.2)]) hnd2
      rw [this]
      simp

/-- The key-rename applied at serialization time. -/
def renameParamKey (k : String) : String :=
  if k = "max_tokens" then "num_predict" else k

theorem to_dict_eq_foldl (p : ModelParameters) :
    ModelParameters.to_dict p =
      p.foldl (fun a kv => dictSet a (renameParamKey kv.1) kv.2) [] := rfl

theorem map_rename_id (q : List (String × PyVal))
    (h : "max_tokens" ∉ q.map Prod.fst) :
    q.map (fun kv => (renameParamKey kv.1, kv.2)) = q := by
  induction q with
  | nil => rfl
  | cons kv rest ih =>
      simp only [List.map_cons, List.mem_cons] at h
      push_neg at h
      have h1 : renameParamKey kv.1 = kv.1 :=
        if_neg (fun he => h.1 he.symm)
      simp [h1, ih h.2]

theorem keys_of_renamed (q : List (String × PyVal)) :
    (q.map (fun kv => (renameParamKey kv.1, kv.2))).map Prod.fst =
      (q.map Prod.fst).map renameParamKey := by
  simp [List.map_map, Function.comp]

/-- C8: with distinct keys not colliding with the backend name, `to_dict`
is the identity when `max_tokens` is unset; in general it only renames
`max_tokens` to `num_predict`, so the output never holds a `max_tokens`
key, holds `num_predict = N` when `max_tokens = N` was set, and holds
exactly the explicitly set keys; reading an unset key raises the
`AttributeError` text instead of a default. -/
theorem model_parameters_to_dict_spec (p : ModelParameters)
    (hnd : (p.map Prod.fst).Nodup) :
    ("max_tokens" ∉ p.map Prod.fst → ModelParameters.to_dict p = p)
    ∧ ("num_predict" ∉ p.map Prod.fst →
        ModelParameters.to_dict p =
            p.map (fun kv => (renameParamKey kv.1, kv.2))
          ∧ "max_tokens" ∉ (ModelParameters.to_dict p).map Prod.fst
          ∧ ∀ v, ("max_tokens", v) ∈ p →
              ("num_predict", v) ∈ ModelParameters.to_dict p)
    ∧ ∀ name, List.lookup name p = Option.none →
        ModelParameters.getattr p name =
          Except.error (sq ++ "ModelParameters" ++ sq ++
            " object has no attribute " ++ sq ++ name ++ sq) := by
  refine ⟨?_, ?_, ?_⟩
  · intro hmt
    have hid := map_rename_id p hmt
    have hfold := foldl_dictSet_eq_map renameParamKey p []
      (by simpa [hid] using hnd)
    rw [to_dict_eq_foldl, hfold]
    simpa using hid
  · intro hnp
    have hndr : ((p.map (fun kv => (renameParamKey kv.1, kv.2))).map
        Prod.fst).Nodup := by
      rw [keys_of_renamed]
      refine List.Nodup.map_on ?_ hnd
      intro a ha b hb hab
      by_cases hA : a = "max_tokens" <;> by_cases hB : b = "max_tokens"
      · rw [hA, hB]
      · exfalso
        apply hnp
        rw [renameParamKey, if_pos hA, renameParamKey, if_neg hB] at hab
        rw [← hab] at hb
        exact hb
      · exfalso
        apply hnp
        rw [renameParamKey, if_neg hA, renameParamKey, if_pos hB] at hab
        rw [hab] at ha
        exact ha
      · rwa [renameParamKey, if_neg hA, renameParamKey, if_neg hB] at hab
    have hfold := foldl_dictSet_eq_map renameParamKey p []
      (by simpa using hndr)
    have hmaps : ModelParameters.to_dict p =
        p.map (fun kv => (renameParamKey kv.1, kv.2)) := by
      rw [to_dict_eq_foldl, hfold]
      simp
    refine ⟨hmaps, ?_, ?_⟩
    · rw [hmaps, keys_of_renamed]
      intro hmem
      rcases List.mem_map.mp hmem with ⟨k, hk, hren⟩
      by_cases hK : k = "max_tokens"
      · rw [renameParamKey, if_pos hK] at hren
        exact absurd hren (by decide)
      · rw [renameParamKey, if_neg hK] at hren
        exact hK hren
    · intro v hv
      rw [hmaps]
      exact List.mem_map.mpr ⟨("max_tokens", v), hv, rfl⟩
  · intro name h
    simp [ModelParameters.getattr, h]

/-- C8 witness: a two-key parameter set without `max_tokens` serializes
to itself; `max_tokens = 100` (with `think`) serializes to `num_predict`
only; `temperature` unread raises. -/
theorem model_parameters_to_dict_spec_witness :
    ModelParameters.to_dict
        [("temperature", PyVal.float "0.7"), ("top_k", PyVal.int 40)] =
      [("temperature", PyVal.float "0.7"), ("top_k", PyVal.int 40)]
    ∧ "max_tokens" ∉ (ModelParameters.to_dict
        [("max_tokens", PyVal.int 100), ("think", PyVal.bool true)]).map
        Prod.fst
    ∧ ("num_predict", PyVal.int 100) ∈ ModelParameters.to_dict
        [("max_tokens", PyVal.int 100), ("think", PyVal.bool true)]
    ∧ ModelParameters.getattr [("think", PyVal.bool true)] "temperature" =
        Except.error (sq ++ "ModelParameters" ++ sq ++
          " object has no attribute " ++ sq ++ "temperature" ++ sq) := by
  refine ⟨?_, ?_, ?_, ?_⟩
  · exact (model_parameters_to_dict_spec
      [("temperature", PyVal.float "0.7"), ("top_k", PyVal.int 40)]
      (by decide)).1 (by decide)
  · exact ((model_parameters_to_dict_spec
      [("max_tokens", PyVal.int 100), ("think", PyVal.bool true)]
      (by decide)).2.1 (by decide)).2.1
  · exact ((model_parameters_to_dict_spec
      [("max_tokens", PyVal.int 100), ("think", PyVal.bool true)]
      (by decide)).2.1 (by decide)).2.2 (PyVal.int 100) (by simp)
  · exact (model_parameters_to_dict_spec [("think", PyVal.bool true)]
      (by decide)).2.2 "temperature" rfl

/- ## C9: tool message invariants -/

/-- The message `add_tool_results` builds for one `ToolResult` (the
closed form of one `add_tool_message` call made by it). -/
def toolMessageOf (r : ToolResult) : Message :=
  { role := MessageRole.tool
    content :=
      if pyTruthyStrOpt r.error then
        "Error executing " ++ r.function_name ++ ": " ++ (r.error.getD "")
      else pyStr r.result
    tool_call_id := some (r.tool_call_id.getD "")
    metadata := [("function_name", PyVal.str r.function_name)] }

/-- The invariant "`tool_calls` is only ever attached to assistant
messages". -/
def toolCallsOnlyOnAssistant (c : Conversation) : Prop :=
  ∀ m ∈ c.messages, m.tool_calls ≠ Option.none →
    m.role = MessageRole.assistant

theorem add_tool_results_spec (results : List ToolResult) :
    ∀ c : Conversation,
      c.add_tool_results results =
        (results.map toolMessageOf,
         { c with messages := c.messages ++ results.map toolMessageOf }) := by
  induction results with
  | nil => intro c; simp [Conversation.add_tool_results]
  | cons r rest ih =>
      intro c
      simp only [Conversation.add_tool_results, Conversation.add_tool_message,
        List.map_cons]
      rw [ih]
      simp [toolMessageOf]

/-- C9 counterexample: a `ToolResult` whose `tool_call_id` is absent
(`None`, as happens whenever the backend supplies no call ids) produces a
tool message whose `tool_call_id` is the empty string — not the
originating id — and whose `get_message_history` entry omits the
`tool_call_id` key entirely. -/
theorem tool_message_missing_id_counterexample :
    (Conversation.add_tool_results { }
        [⟨Option.none, "f", PyVal.int 1, Option.none⟩]).1.map
        Message.tool_call_id = [some ""]
    ∧ (Conversation.add_tool_results { }
        [⟨Option.none, "f", PyVal.int 1, Option.none⟩]).2.get_message_history =
      [[("role", PyVal.str "tool"), ("content", PyVal.str "1")]] := by
  constructor <;> rfl

/-- C9 (amended): every message produced by `add_tool_results` is a tool
message carrying `tool_call_id = some (originating id or "")` and no
`tool_calls`; the history entry includes the id exactly when it is a
non-empty string (an absent or empty id yields the bare role/content
entry); `get_message_history` extends by exactly these entries; and no
documented append operation attaches `tool_calls` to any message, so the
invariant "`tool_calls` only on assistant messages" is preserved by all
of them. -/
theorem tool_message_invariant :
    (∀ (c : Conversation) (results : List ToolResult),
      c.add_tool_results results =
        (results.map toolMessageOf,
         { c with messages := c.messages ++ results.map toolMessageOf })
      ∧ (c.add_tool_results results).2.get_message_history =
          c.get_message_history ++
            (results.map toolMessageOf).map Message.to_dict)
    ∧ (∀ r : ToolResult,
        (toolMessageOf r).role = MessageRole.tool
        ∧ (toolMessageOf r).tool_call_id = some (r.tool_call_id.getD "")
        ∧ (toolMessageOf r).tool_calls = Option.none)
    ∧ (∀ (r : ToolResult) (s : String), r.tool_call_id = some s → s ≠ "" →
        (toolMessageOf r).to_dict =
          [("role", PyVal.str "tool"),
           ("content", PyVal.str (toolMessageOf r).content),
           ("tool_call_id", PyVal.str s)])
    ∧ (∀ r : ToolResult, r.tool_call_id = Option.none →
        (toolMessageOf r).to_dict =
          [("role", PyVal.str "tool"),
           ("content", PyVal.str (toolMessageOf r).content)])
    ∧ (∀ (c : Conversation) (content : String),
        toolCallsOnlyOnAssistant c →
        toolCallsOnlyOnAssistant (c.add_system_message content).2
        ∧ toolCallsOnlyOnAssistant (c.add_user_message content).2
        ∧ toolCallsOnlyOnAssistant (c.add_assistant_message content).2)
    ∧ (∀ (c : Conversation) (content tcid fn : String),
        toolCallsOnlyOnAssistant c →
        toolCallsOnlyOnAssistant (c.add_tool_message content tcid fn).2)
    ∧ (∀ (c : Conversation) (results : List ToolResult),
        toolCallsOnlyOnAssistant c →
        toolCallsOnlyOnAssistant (c.add_tool_results results).2) := by
  refine ⟨?_, ?_, ?_, ?_, ?_, ?_, ?_⟩
  · intro c results
    refine ⟨add_tool_results_spec results c, ?_⟩
    rw [add_tool_results_spec results c]
    simp [Conversation.get_message_history]
  · intro r
    exact ⟨rfl, rfl, rfl⟩
  · intro r s hs hne
    have hempty : s.isEmpty = false := by
      cases he : s.isEmpty
      · rfl
      · exact absurd ((String.isEmpty_iff s).mp he) hne
    simp [toolMessageOf, Message.to_dict, pyTruthyStrOpt, pyTruthyListOpt,
      hs, hempty, MessageRole.value]
  · intro r hnone
    simp [toolMessageOf, Message.to_dict, pyTruthyStrOpt, pyTruthyListOpt,
      hnone, MessageRole.value, String.isEmpty]
  · intro c content hc
    refine ⟨?_, ?_, ?_⟩ <;>
    · intro m hm htc
      simp only [Conversation.add_system_message,
        Conversation.add_user_message, Conversation.add_assistant_message,
        List.mem_append, List.mem_singleton] at hm
      rcases hm with hm | hm
      · exact hc m hm htc
      · subst hm; simp at htc
  · intro c content tcid fn hc
    intro m hm htc
    simp only [Conversation.add_tool_message, List.mem_append,
      List.mem_singleton] at hm
    rcases hm with hm | hm
    · exact hc m hm htc
    · subst hm; simp at htc
  · intro c results hc
    rw [add_tool_results_spec results c]
    intro m hm htc
    simp only [List.mem_append] at hm
    rcases hm with hm | hm
    · exact hc m hm htc
    · rcases List.mem_map.mp hm with ⟨r, _, hr⟩
      subst hr
      simp [toolMessageOf] at htc

/-- C9 witness: a present non-empty id round-trips into the history
entry; an invariant-satisfying conversation stays invariant-satisfying
under the append operations. -/
theorem tool_message_invariant_witness :
    (toolMessageOf ⟨some "id7", "f", PyVal.int 1, Option.none⟩).to_dict =
      [("role", PyVal.str "tool"),
       ("content", PyVal.str (toolMessageOf ⟨some "id7", "f", PyVal.int 1, Option.none⟩).content),
       ("tool_call_id", PyVal.str "id7")]
    ∧ toolCallsOnlyOnAssistant
        (Conversation.add_user_message { } "hello").2 := by
  constructor
  · exact tool_message_invariant.2.2.1
      ⟨some "id7", "f", PyVal.int 1, Option.none⟩ "id7" rfl
      (by decide)
  · exact ((tool_message_invariant.2.2.2.2.1 { } "hello"
      (by intro m hm htc; simp [Conversation.messages] at hm)).2).1

/- ## Substring containment lemmas -/

theorem findSub_some_decomp (pat : List Char) :
    ∀ (s : List Char) (i : Nat), findSub pat s = some i →
      ∃ a b, s = a ++ pat ++ b ∧ a.length = i := by
  intro s
  induction s with
  | nil =>
      intro i h
      by_cases hp : pat = []
      · subst hp
        simp [findSub] at h
        exact ⟨[], [], by simp, by simp [h]⟩
      · simp [findSub, hp] at h
  | cons c rest ih =>
      intro i h
      simp only [findSub] at h
      by_cases hp : pat.isPrefixOf (c :: rest)
      · rw [if_pos hp] at h
        simp at h
        obtain ⟨t, ht⟩ := List.isPrefixOf_iff_prefix.mp hp
        exact ⟨[], t, by simp [← ht], by simp [h]⟩
      · rw [if_neg hp] at h
        rcases hm : findSub pat rest with _ | i0
        · rw [hm] at h; simp at h
        · rw [hm] at h
          simp at h
          obtain ⟨a, b, hs, hl⟩ := ih i0 hm
          exact ⟨c :: a, b, by simp [hs], by simp [hl, ← h]⟩

theorem containsSub_of_decomp (pat : List Char) :
    ∀ (a b : List Char), containsSub pat (a ++ pat ++ b) = true := by
  intro a
  induction a with
  | nil =>
      intro b
      simp only [containsSub, List.nil_append]
      cases hs : pat ++ b with
      | nil =>
          have : pat = [] := (List.append_eq_nil.mp hs).1
          simp [this, findSub]
      | cons c rest =>
          have hpre : pat.isPrefixOf (c :: rest) := by
            rw [← hs]
            exact List.isPrefixOf_iff_prefix.mpr (List.prefix_append pat b)
          simp [findSub, hpre]
  | cons c a2 ih =>
      intro b
      have hih := ih b
      simp only [containsSub, List.append_assoc] at hih ⊢
      simp only [List.cons_append, findSub]
      rcases hm : findSub pat (a2 ++ (pat ++ b)) with _ | i0
      · rw [hm] at hih; simp at hih
      · cases hb : pat.isPrefixOf (c :: (a2 ++ (pat ++ b))) <;> simp [hb, hm]

theorem containsSub_iff (pat s : List Char) :
    containsSub pat s = true ↔ ∃ a b, s = a ++ pat ++ b := by
  constructor
  · intro h
    simp only [containsSub, Option.isSome_iff_exists] at h
    obtain ⟨i, hi⟩ := h
    obtain ⟨a, b, hs, _⟩ := findSub_some_decomp pat s i hi
    exact ⟨a, b, hs⟩
  · intro ⟨a, b, hs⟩
    rw [hs]
    exact containsSub_of_decomp pat a b

theorem containsSub_append_left (pat a s : List Char)
    (h : containsSub pat s = true) : containsSub pat (a ++ s) = true := by
  obtain ⟨x, y, hs⟩ := (containsSub_iff pat s).mp h
  exact (containsSub_iff pat (a ++ s)).mpr ⟨a ++ x, y, by simp [hs]⟩

theorem containsSub_append_right (pat s b : List Char)
    (h : containsSub pat s = true) : containsSub pat (s ++ b) = true := by
  obtain ⟨x, y, hs⟩ := (containsSub_iff pat s).mp h
  exact (containsSub_iff pat (s ++ b)).mpr ⟨x, y ++ b, by simp [hs]⟩

theorem searchThink_contains (s : List Char) (i j : Nat)
    (h : searchThink s = some (i, j)) :
    containsSub thinkOpen s = true ∧ containsSub thinkClose s = true := by
  simp only [searchThink, Option.bind_eq_some] at h
  obtain ⟨i0, hi0, h2⟩ := h
  simp only [Option.map_eq_some'] at h2
  obtain ⟨j0, hj0, _⟩ := h2
  constructor
  · simp [containsSub, hi0]
  · have hcl : containsSub thinkClose (s.drop (i0 + 7)) = true := by
      simp [containsSub, hj0]
    have := containsSub_append_left thinkClose (s.take (i0 + 7))
      (s.drop (i0 + 7)) hcl
    rwa [List.take_append_drop] at this

/- ## C6: think-tag extraction during decode -/

/-- C6: whenever the content holds a regex-matched
`<think>`…`</think>` span, decoding strips every delimited span (and
surrounding whitespace) from the content, and uses the first enclosed
text as `thinking` exactly when the dedicated field supplied nothing
truthy; on the concrete payload the claim names, the decoded response has
`thinking = "reasoning here"` and `content = "final answer"`. -/
theorem think_tag_extraction :
    (∀ (content : String) (thinking0 : Option String) (i j : Nat),
      searchThink content.toList = some (i, j) →
      decodeThink content thinking0 =
        (String.mk (pyStrip (removeThinkSpans content.toList)),
         if pyTruthyStrOpt thinking0 then thinking0
         else some (String.mk (pyStrip ((content.toList.drop (i + 7)).take j)))))
    ∧ decodeResponse "m"
        { message := some
            { content := some "<think>reasoning here</think>final answer"
              thinking := Option.none
              tool_calls := Option.none }
          done := Option.none
          prompt_eval_count := Option.none } =
      { model_name := "m"
        content := "final answer"
        finish_reason := Option.none
        usage := PyVal.dict []
        tool_calls := Option.none
        tool_results := Option.none
        thinking := some "reasoning here" } := by
  constructor
  · intro content thinking0 i j h
    have hcont := searchThink_contains content.toList i j h
    have hopen : strContains content "<think>" = true := hcont.1
    have hclose : strContains content "</think>" = true := hcont.2
    simp only [decodeThink, hopen, hclose, Bool.and_self, if_true, h]
  · rfl

/-- C6 witness: the conditional part instantiated both with an absent
dedicated field and with a truthy one. -/
theorem think_tag_extraction_witness :
    decodeThink "<think>ab</think>cd" Option.none = ("cd", some "ab")
    ∧ decodeThink "<think>ab</think>cd" (some "sup") = ("cd", some "sup") := by
  constructor
  · exact (think_tag_extraction.1 "<think>ab</think>cd" Option.none 0 2
      rfl).trans (by rfl)
  · exact (think_tag_extraction.1 "<think>ab</think>cd" (some "sup") 0 2
      rfl).trans (by rfl)

/- ## C5: the caller's conversation is never mutated -/

/-- C5: both tool-executing orchestrators leave the caller's conversation
exactly as passed in — the assistant message carrying the tool calls and
the tool-result messages are appended only to the working copy built from
`conversation.messages.copy()`. -/
theorem tool_execution_preserves_caller_conversation :
    (∀ (bk : Backend) (log : List ChatKwargs) (c : Conversation)
       (params : Option ModelParameters) (tools : Option (List PyFunc))
       (auto : Bool),
      (OllamaConversationService.generate_response_with_tool_execution bk log
        c params tools auto).2.2 = c)
    ∧ (∀ (bk : BackendS) (log : List ChatKwargs) (c : Conversation)
       (params : Option ModelParameters) (tools : Option (List PyFunc))
       (auto : Bool),
      (OllamaConversationService.stream_response_with_tool_execution bk log
        c params tools auto).2.2 = c) := by
  constructor
  · intro bk log c params tools auto
    unfold OllamaConversationService.generate_response_with_tool_execution
    dsimp only
    split
    · rfl
    · split
      · rfl
      · split <;> rfl
  · intro bk log c params tools auto
    unfold OllamaConversationService.stream_response_with_tool_execution
    dsimp only
    split
    · rfl
    · split
      · rfl
      · split <;> rfl

/- ## C3: the two-request resolve protocol -/

theorem generate_response_ok (bk : Backend) (log : List ChatKwargs)
    (conv : Conversation) (params : Option ModelParameters)
    (tools : Option (List PyFunc)) (r : ChatResponse)
    (hok : bk log.length (buildChatKwargs conv params tools false) =
      Except.ok r) :
    OllamaConversationService.generate_response bk log conv params tools =
      (Except.ok (decodeResponse conv.model_name r),
       log ++ [buildChatKwargs conv params tools false]) := by
  unfold OllamaConversationService.generate_response ollamaChat
  dsimp only
  rw [hok]

theorem pyTruthyListOpt_of_ne_nil {α : Type} (l : List α) (h : l ≠ []) :
    pyTruthyListOpt (some l) = true := by
  cases l with
  | nil => exact absurd rfl h
  | cons x xs => simp [pyTruthyListOpt]

/-- C3 (amended): with a first reply carrying tool calls, auto-execution
on and a non-empty tool list, exactly two backend requests are issued;
the second request carries no tools but still forwards the caller's
`think` parameter, and goes over the history extended with the
tool-call-bearing assistant message and the tool-result messages; the
returned response carries the final reply's textual content,
finish_reason and usage, together with the original tool_calls and the
computed tool_results. -/
theorem generate_with_tool_execution_two_requests
    (conv : Conversation) (params : ModelParameters) (ts : List PyFunc)
    (hts : ts ≠ []) (resp1 resp2 : ChatResponse) (tcs : List RawToolCall)
    (htc : resp1.message.bind ChatMessage.tool_calls = some tcs)
    (hne : tcs ≠ []) :
    (OllamaConversationService.generate_response_with_tool_execution
      (fun n _ => if n = 0 then Except.ok resp1 else Except.ok resp2)
      [] conv (some params) (some ts) true).2.1.length = 2
    ∧ (OllamaConversationService.generate_response_with_tool_execution
        (fun n _ => if n = 0 then Except.ok resp1 else Except.ok resp2)
        [] conv (some params) (some ts) true).2.1.map ChatKwargs.tools =
      [some (ts.map PyFunc.name), Option.none]
    ∧ (OllamaConversationService.generate_response_with_tool_execution
        (fun n _ => if n = 0 then Except.ok resp1 else Except.ok resp2)
        [] conv (some params) (some ts) true).2.1.map ChatKwargs.think =
      [List.lookup "think" params, List.lookup "think" params]
    ∧ (OllamaConversationService.generate_response_with_tool_execution
        (fun n _ => if n = 0 then Except.ok resp1 else Except.ok resp2)
        [] conv (some params) (some ts) true).2.1.map ChatKwargs.messages =
      [conv.get_message_history,
       conv.get_message_history ++
         Message.to_dict
           { role := MessageRole.assistant
             content := (decodeResponse conv.model_name resp1).content
             tool_calls := (decodeResponse conv.model_name resp1).tool_calls } ::
         ((executeAllToolCalls (buildRegistry ts)
            ((decodeResponse conv.model_name resp1).tool_calls.getD [])).map
            toolMessageOf).map Message.to_dict]
    ∧ (OllamaConversationService.generate_response_with_tool_execution
        (fun n _ => if n = 0 then Except.ok resp1 else Except.ok resp2)
        [] conv (some params) (some ts) true).1 =
      Except.ok
        { model_name := conv.model_name
          content := (decodeResponse conv.model_name resp2).content
          finish_reason := resp2.done
          usage := resp2.prompt_eval_count.getD (PyVal.dict [])
          tool_calls := (decodeResponse conv.model_name resp1).tool_calls
          tool_results := some (executeAllToolCalls (buildRegistry ts)
            ((decodeResponse conv.model_name resp1).tool_calls.getD []))
          thinking := Option.none } := by
  have h1 := generate_response_ok
    (fun n _ => if n = 0 then Except.ok resp1 else Except.ok resp2)
    [] conv (some params) (some ts) resp1 rfl
  have h2 : ∀ cv : Conversation,
      OllamaConversationService.generate_response
        (fun n _ => if n = 0 then Except.ok resp1 else Except.ok resp2)
        [buildChatKwargs conv (some params) (some ts) false] cv
        (some params) Option.none =
      (Except.ok (decodeResponse cv.model_name resp2),
       [buildChatKwargs conv (some params) (some ts) false,
        buildChatKwargs cv (some params) Option.none false]) := by
    intro cv
    exact generate_response_ok _ _ cv (some params) Option.none resp2 rfl
  have htl : (decodeResponse conv.model_name resp1).tool_calls =
      some (tcs.map (fun tc =>
        { function := { name := tc.name, arguments := tc.arguments }
          id := tc.id : ToolCall })) := by
    simp [decodeResponse, htc]
  have htrue1 : pyTruthyListOpt
      (decodeResponse conv.model_name resp1).tool_calls = true := by
    rw [htl]
    apply pyTruthyListOpt_of_ne_nil
    cases tcs with
    | nil => exact absurd rfl hne
    | cons x xs => simp
  have hts2 : pyTruthyListOpt (some ts) = true :=
    pyTruthyListOpt_of_ne_nil ts hts
  have hout : OllamaConversationService.generate_response_with_tool_execution
      (fun n _ => if n = 0 then Except.ok resp1 else Except.ok resp2)
      [] conv (some params) (some ts) true =
      (Except.ok
        { model_name := conv.model_name
          content := (decodeResponse conv.model_name resp2).content
          finish_reason := (decodeResponse conv.model_name resp2).finish_reason
          usage := (decodeResponse conv.model_name resp2).usage
          tool_calls := (decodeResponse conv.model_name resp1).tool_calls
          tool_results := some (executeAllToolCalls (buildRegistry ts)
            ((decodeResponse conv.model_name resp1).tool_calls.getD []))
          thinking := Option.none },
       [buildChatKwargs conv (some params) (some ts) false,
        buildChatKwargs
          { model_name := conv.model_name
            messages := (conv.messages ++
              [{ role := MessageRole.assistant
                 content := (decodeResponse conv.model_name resp1).content
                 tool_calls :=
                   (decodeResponse conv.model_name resp1).tool_calls }]) ++
              (executeAllToolCalls (buildRegistry ts)
                ((decodeResponse conv.model_name resp1).tool_calls.getD
                  [])).map toolMessageOf }
          (some params) Option.none false],
       conv) := by
    unfold OllamaConversationService.generate_response_with_tool_execution
    rw [h1]
    simp only [List.nil_append, Option.getD_some]
    rw [add_tool_results_spec]
    dsimp only
    rw [h2]
    simp only [htrue1, hts2, Bool.not_true, Bool.or_self, Bool.or_false,
      Bool.false_or, Bool.false_eq_true, if_false]
  refine ⟨?_, ?_, ?_, ?_, ?_⟩
  · rw [hout]
    rfl
  · rw [hout]
    simp [buildChatKwargs, hts2, pyTruthyListOpt]
    exact hts
  · rw [hout]
    simp [buildChatKwargs]
  · rw [hout]
    simp [buildChatKwargs, Conversation.get_message_history]
  · rw [hout]
    rfl

/-- C3 witness: the two-request count at a concrete conversation, think
parameter, tool list and reply pair. -/
theorem generate_with_tool_execution_two_requests_witness :
    (OllamaConversationService.generate_response_with_tool_execution
      (fun n _ => if n = 0
        then Except.ok
          { message := some
              { content := some ""
                thinking := Option.none
                tool_calls := some [{ name := "add"
                                      arguments := [("a", PyVal.str "5"),
                                                    ("b", PyVal.str "3")]
                                      id := some "t1" }] }
            done := some (PyVal.str "length")
            prompt_eval_count := some (PyVal.int 7) }
        else Except.ok
          { message := some
              { content := some "8 is the answer"
                thinking := Option.none
                tool_calls := Option.none }
            done := some (PyVal.str "stop")
            prompt_eval_count := some (PyVal.int 9) })
      []
      { model_name := "m"
        messages := [{ role := MessageRole.user, content := "hi" }] }
      (some [("think", PyVal.bool true)]) (some [addTool])
      true).2.1.length = 2 := by
  exact (generate_with_tool_execution_two_requests
    { model_name := "m"
      messages := [{ role := MessageRole.user, content := "hi" }] }
    [("think", PyVal.bool true)] [addTool] (List.cons_ne_nil _ _)
    { message := some
        { content := some ""
          thinking := Option.none
          tool_calls := some [{ name := "add"
                                arguments := [("a", PyVal.str "5"),
                                              ("b", PyVal.str "3")]
                                id := some "t1" }] }
      done := some (PyVal.str "length")
      prompt_eval_count := some (PyVal.int 7) }
    { message := some
        { content := some "8 is the answer"
          thinking := Option.none
          tool_calls := Option.none }
      done := some (PyVal.str "stop")
      prompt_eval_count := some (PyVal.int 9) }
    [{ name := "add"
       arguments := [("a", PyVal.str "5"), ("b", PyVal.str "3")]
       id := some "t1" }]
    rfl (List.cons_ne_nil _ _)).1

/-- C3 counterexample: with `think = True` among the parameters, the
second request still carries `think` (the claim says it is sent without
forcing thinking), and the returned `finish_reason` is the final reply's
`"stop"`, not the first reply's `"length"` as the claim's reading "the
first response's finish_reason/usage" asserts. -/
theorem generate_with_tool_execution_counterexample :
    (OllamaConversationService.generate_response_with_tool_execution
      (fun n _ => if n = 0
        then Except.ok
          { message := some
              { content := some ""
                thinking := Option.none
                tool_calls := some [{ name := "add"
                                      arguments := [("a", PyVal.str "5"),
                                                    ("b", PyVal.str "3")]
                                      id := some "t1" }] }
            done := some (PyVal.str "length")
            prompt_eval_count := some (PyVal.int 7) }
        else Except.ok
          { message := some
              { content := some "8 is the answer"
                thinking := Option.none
                tool_calls := Option.none }
            done := some (PyVal.str "stop")
            prompt_eval_count := some (PyVal.int 9) })
      []
      { model_name := "m"
        messages := [{ role := MessageRole.user, content := "hi" }] }
      (some [("think", PyVal.bool true)]) (some [addTool])
      true).2.1.map ChatKwargs.think =
      [some (PyVal.bool true), some (PyVal.bool true)]
    ∧ (OllamaConversationService.generate_response_with_tool_execution
      (fun n _ => if n = 0
        then Except.ok
          { message := some
              { content := some ""
                thinking := Option.none
                tool_calls := some [{ name := "add"
                                      arguments := [("a", PyVal.str "5"),
                                                    ("b", PyVal.str "3")]
                                      id := some "t1" }] }
            done := some (PyVal.str "length")
            prompt_eval_count := some (PyVal.int 7) }
        else Except.ok
          { message := some
              { content := some "8 is the answer"
                thinking := Option.none
                tool_calls := Option.none }
            done := some (PyVal.str "stop")
            prompt_eval_count := some (PyVal.int 9) })
      []
      { model_name := "m"
        messages := [{ role := MessageRole.user, content := "hi" }] }
      (some [("think", PyVal.bool true)]) (some [addTool])
      true).1 =
      Except.ok
        { model_name := "m"
          content := "8 is the answer"
          finish_reason := some (PyVal.str "stop")
          usage := PyVal.int 9
          tool_calls := some [⟨⟨"add", [("a", PyVal.str "5"),
            ("b", PyVal.str "3")]⟩, some "t1"⟩]
          tool_results := some [⟨some "t1", "add", PyVal.int 8, Option.none⟩]
          thinking := Option.none }
    ∧ (some (PyVal.str "stop") : Option PyVal) ≠ some (PyVal.str "length") := by
  refine ⟨rfl, rfl, ?_⟩
  intro h
  simp at h

/- ## C4: capability-fallback ladder -/

theorem noTools_think (kw : ChatKwargs) : kw.noTools.think = kw.think := rfl

/-- C4 (amended): when the first chat request fails, the failure text is
lower-cased and scanned; with neither feature flagged the error
propagates unmodified after exactly one request; with both flagged one
retry goes out with both stripped; with only tools flagged the retry
keeps thinking, and on a second failure a final retry without thinking is
attempted exactly when `think` was present; with only thinking flagged
one retry goes out without `think`.  In every case the surfaced failure
is the error of the last attempt made — not the original failure.  The
same propagation of unrecognized failures holds on the streaming path. -/
theorem capability_fallback_ladder (bk : Backend) (log : List ChatKwargs)
    (conv : Conversation) (params : Option ModelParameters)
    (tools : Option (List PyFunc)) (e : String)
    (hbk : bk log.length (buildChatKwargs conv params tools false) =
      Except.error e) :
    ((pyTruthyListOpt tools &&
        (strContains (strToLower e) "tools" ||
         strContains (strToLower e) "does not support tools")) = false →
      ((buildChatKwargs conv params tools false).think.isSome &&
        (strContains (strToLower e) "think" ||
         strContains (strToLower e) "thinking")) = false →
      OllamaConversationService.generate_response bk log conv params tools =
        (Except.error e,
         log ++ [buildChatKwargs conv params tools false]))
    ∧ ((pyTruthyListOpt tools &&
        (strContains (strToLower e) "tools" ||
         strContains (strToLower e) "does not support tools")) = true →
      ((buildChatKwargs conv params tools false).think.isSome &&
        (strContains (strToLower e) "think" ||
         strContains (strToLower e) "thinking")) = true →
      ∀ res2 : Except String ChatResponse,
        bk (log.length + 1)
          (buildChatKwargs conv params tools false).noTools.noThink = res2 →
        OllamaConversationService.generate_response bk log conv params tools =
          (match res2 with
           | Except.ok r => Except.ok (decodeResponse conv.model_name r)
           | Except.error e2 => Except.error e2,
           log ++ [buildChatKwargs conv params tools false,
             (buildChatKwargs conv params tools false).noTools.noThink]))
    ∧ ((pyTruthyListOpt tools &&
        (strContains (strToLower e) "tools" ||
         strContains (strToLower e) "does not support tools")) = true →
      ((buildChatKwargs conv params tools false).think.isSome &&
        (strContains (strToLower e) "think" ||
         strContains (strToLower e) "thinking")) = false →
      (∀ r : ChatResponse,
        bk (log.length + 1)
          (buildChatKwargs conv params tools false).noTools = Except.ok r →
        OllamaConversationService.generate_response bk log conv params tools =
          (Except.ok (decodeResponse conv.model_name r),
           log ++ [buildChatKwargs conv params tools false,
             (buildChatKwargs conv params tools false).noTools]))
      ∧ (∀ e2 : String,
        bk (log.length + 1)
          (buildChatKwargs conv params tools false).noTools =
          Except.error e2 →
        ((buildChatKwargs conv params tools false).think.isSome = true →
          ∀ res3 : Except String ChatResponse,
            bk (log.length + 2)
              (buildChatKwargs conv params tools false).noTools.noThink =
              res3 →
            OllamaConversationService.generate_response bk log conv params
              tools =
            (match res3 with
             | Except.ok r => Except.ok (decodeResponse conv.model_name r)
             | Except.error e3 => Except.error e3,
             log ++ [buildChatKwargs conv params tools false,
               (buildChatKwargs conv params tools false).noTools,
               (buildChatKwargs conv params tools false).noTools.noThink]))
        ∧ ((buildChatKwargs conv params tools false).think.isSome = false →
          OllamaConversationService.generate_response bk log conv params
            tools =
          (Except.error e2,
           log ++ [buildChatKwargs conv params tools false,
             (buildChatKwargs conv params tools false).noTools]))))
    ∧ ((pyTruthyListOpt tools &&
        (strContains (strToLower e) "tools" ||
         strContains (strToLower e) "does not support tools")) = false →
      ((buildChatKwargs conv params tools false).think.isSome &&
        (strContains (strToLower e) "think" ||
         strContains (strToLower e) "thinking")) = true →
      ∀ res2 : Except String ChatResponse,
        bk (log.length + 1)
          (buildChatKwargs conv params tools false).noThink = res2 →
        OllamaConversationService.generate_response bk log conv params tools =
          (match res2 with
           | Except.ok r => Except.ok (decodeResponse conv.model_name r)
           | Except.error e2 => Except.error e2,
           log ++ [buildChatKwargs conv params tools false,
             (buildChatKwargs conv params tools false).noThink]))
    ∧ (∀ (bkS : BackendS) (eS : String),
      bkS log.length (buildChatKwargs conv params tools true) =
        Except.error eS →
      ((buildChatKwargs conv params tools true).tools.isSome &&
        (strContains (strToLower eS) "tools" ||
         strContains (strToLower eS) "does not support tools")) = false →
      ((buildChatKwargs conv params tools true).think.isSome &&
        (strContains (strToLower eS) "think" ||
         strContains (strToLower eS) "thinking")) = false →
      OllamaConversationService.stream_response bkS log conv params tools =
        (Except.error eS,
         log ++ [buildChatKwargs conv params tools true])) := by
  refine ⟨?_, ?_, ?_, ?_, ?_⟩
  · intro htu hthu
    unfold OllamaConversationService.generate_response ollamaChat
    dsimp only
    rw [hbk]
    dsimp only
    simp only [htu, hthu, Bool.false_and, Bool.and_false, Bool.false_eq_true,
      if_false]
  · intro htu hthu res2 hb2
    unfold OllamaConversationService.generate_response ollamaChat
    dsimp only
    rw [hbk]
    dsimp only
    simp only [htu, hthu, Bool.and_self, if_true, List.length_append,
      List.length_cons, List.length_nil, Nat.zero_add]
    rw [hb2]
    cases res2 <;> simp
  · intro htu hthu
    constructor
    · intro r hb2
      unfold OllamaConversationService.generate_response ollamaChat
      dsimp only
      rw [hbk]
      dsimp only
      simp only [htu, hthu, Bool.and_false, Bool.false_eq_true, if_false,
        if_true, List.length_append, List.length_cons, List.length_nil,
        Nat.zero_add]
      rw [hb2]
      simp
    · intro e2 hb2
      constructor
      · intro hth res3 hb3
        unfold OllamaConversationService.generate_response ollamaChat
        dsimp only
        rw [hbk]
        dsimp only
        simp only [htu, hthu, Bool.and_false, Bool.false_eq_true, if_false,
          if_true, List.length_append, List.length_cons, List.length_nil,
          Nat.zero_add]
        rw [hb2]
        dsimp only
        rw [noTools_think] at *
        simp only [hth, if_true, List.length_append, List.length_cons,
          List.length_nil, Nat.zero_add]
        rw [hb3]
        cases res3 <;> simp
      · intro hth
        unfold OllamaConversationService.generate_response ollamaChat
        dsimp only
        rw [hbk]
        dsimp only
        simp only [htu, hthu, Bool.and_false, Bool.false_eq_true, if_false,
          if_true, List.length_append, List.length_cons, List.length_nil,
          Nat.zero_add]
        rw [hb2]
        dsimp only
        rw [noTools_think] at *
        simp only [hth, Bool.false_eq_true, if_false]
        simp
  · intro htu hthu res2 hb2
    unfold OllamaConversationService.generate_response ollamaChat
    dsimp only
    rw [hbk]
    dsimp only
    simp only [htu, hthu, Bool.false_and, Bool.false_eq_true, if_false,
      if_true, List.length_append, List.length_cons, List.length_nil,
      Nat.zero_add]
    rw [hb2]
    cases res2 <;> simp
  · intro bkS eS hbkS htu hthu
    unfold OllamaConversationService.stream_response
      createStreamWithFallback ollamaChatStream
    dsimp only
    rw [hbkS]
    dsimp only
    simp only [htu, hthu, Bool.false_and, Bool.and_false, Bool.false_eq_true,
      if_false]

/-- C4 witness: a failure with no capability keywords propagates
unmodified after a single request. -/
theorem capability_fallback_ladder_witness :
    OllamaConversationService.generate_response
      (fun _ _ => Except.error "connection refused") []
      { model_name := "m", messages := [] } Option.none Option.none =
      (Except.error "connection refused",
       [buildChatKwargs { model_name := "m", messages := [] } Option.none
         Option.none false]) := by
  exact (capability_fallback_ladder (fun _ _ => Except.error
    "connection refused") [] { model_name := "m", messages := [] }
    Option.none Option.none "connection refused" rfl).1 rfl rfl

/-- C4 counterexample: first failure flags tools, the tools-stripped
retry fails with a different error, and that most recent error — not the
original failure — is surfaced. -/
theorem capability_fallback_counterexample :
    (OllamaConversationService.generate_response
      (fun n _ => if n = 0 then Except.error "model does not support tools"
                  else Except.error "boom")
      [] { model_name := "m", messages := [] } Option.none
      (some [addTool])).1 = Except.error "boom"
    ∧ ("boom" : String) ≠ "model does not support tools" := by
  refine ⟨?_, by decide⟩
  rfl

/- ## C7: streaming accumulation versus one-shot decode -/

theorem toList_join (l : List String) :
    (String.join l).toList = (l.map String.toList).flatten := by
  simp only [String.join_eq]
  rfl

theorem strContains_join (pat : String) (l : List String) (s : String)
    (hs : s ∈ l) (hc : strContains s pat = true) :
    strContains (String.join l) pat = true := by
  obtain ⟨u, v, huv⟩ := List.append_of_mem hs
  subst huv
  simp only [strContains] at hc ⊢
  rw [toList_join]
  simp only [List.map_append, List.map_cons, List.flatten_append,
    List.flatten_cons]
  exact containsSub_append_left _ _ _
    (containsSub_append_right _ _ _ hc)

theorem decode_content_no_close (m : String) (c : ChatResponse)
    (hcc : strContains ((c.message.bind ChatMessage.content).getD "")
      "</think>" = false) :
    (decodeResponse m c).content =
      (c.message.bind ChatMessage.content).getD "" := by
  simp [decodeResponse, decodeThink, hcc]

/-- C7 (amended): against a stubbed chunk sequence whose concatenated
content contains no `</think>` delimiter (so the per-chunk `<think>`
handling cannot fire differently from the whole-content handling), the
streamed call yields one decoded response per chunk, the concatenation of
the yielded contents equals the concatenation of the raw chunk contents,
and the equivalent one-shot call over the concatenated content returns
exactly that text — so the accumulated streaming content equals the
non-streaming content. -/
theorem streaming_content_accumulation (conv : Conversation)
    (chunks : List ChatResponse) (hne : chunks ≠ [])
    (hnc : strContains (String.join (chunks.map
      (fun c => (c.message.bind ChatMessage.content).getD "")))
      "</think>" = false) :
    (OllamaConversationService.stream_response (fun _ _ => Except.ok chunks)
      [] conv Option.none Option.none).1 =
      Except.ok (chunks.map (decodeResponse conv.model_name))
    ∧ String.join ((chunks.map (decodeResponse conv.model_name)).map
        GenerationResponse.content) =
      String.join (chunks.map
        (fun c => (c.message.bind ChatMessage.content).getD ""))
    ∧ (OllamaConversationService.generate_response
        (fun _ _ => Except.ok
          { message := some
              { content := some (String.join (chunks.map
                  (fun c => (c.message.bind ChatMessage.content).getD "")))
                thinking := Option.none
                tool_calls := Option.none }
            done := Option.none
            prompt_eval_count := Option.none })
        [] conv Option.none Option.none).1 =
      Except.ok
        { model_name := conv.model_name
          content := String.join (chunks.map
            (fun c => (c.message.bind ChatMessage.content).getD ""))
          finish_reason := Option.none
          usage := PyVal.dict []
          tool_calls := Option.none
          tool_results := Option.none
          thinking := Option.none } := by
  have hie : chunks.isEmpty = false := by
    cases chunks with
    | nil => exact absurd rfl hne
    | cons x xs => rfl
  refine ⟨?_, ?_, ?_⟩
  · unfold OllamaConversationService.stream_response
      createStreamWithFallback ollamaChatStream
    dsimp only
    rw [hie]
    rfl
  · have hpt : ∀ c ∈ chunks, (decodeResponse conv.model_name c).content =
        (c.message.bind ChatMessage.content).getD "" := by
      intro c hc
      apply decode_content_no_close
      cases hcc : strContains ((c.message.bind ChatMessage.content).getD "")
          "</think>" with
      | false => rfl
      | true =>
          have := strContains_join "</think>"
            (chunks.map (fun c2 => (c2.message.bind ChatMessage.content).getD ""))
            ((c.message.bind ChatMessage.content).getD "")
            (List.mem_map_of_mem _ hc) hcc
          rw [this] at hnc
          cases hnc
    have : (chunks.map (decodeResponse conv.model_name)).map
        GenerationResponse.content =
        chunks.map (fun c => (c.message.bind ChatMessage.content).getD "") := by
      rw [List.map_map]
      exact List.map_congr_left (fun c hc => hpt c hc)
    rw [this]
  · rw [generate_response_ok _ _ conv Option.none Option.none _ rfl]
    simp only [Except.ok.injEq]
    simp [decodeResponse, decodeThink, hnc]

/-- C7 counterexample: a `<think>`…`</think>` pair split across two
chunks passes through the per-chunk decode untouched, so the accumulated
streamed content keeps the delimiters, while the one-shot decode of the
same concatenated content strips them — the two contents differ. -/
theorem streaming_accumulation_counterexample :
    (OllamaConversationService.stream_response
      (fun _ _ => Except.ok
        [{ message := some { content := some "<think>a"
                             thinking := Option.none
                             tool_calls := Option.none }
           done := Option.none, prompt_eval_count := Option.none },
         { message := some { content := some "</think>b"
                             thinking := Option.none
                             tool_calls := Option.none }
           done := Option.none, prompt_eval_count := Option.none }])
      [] { model_name := "m", messages := [] } Option.none Option.none).1 =
      Except.ok
        [{ model_name := "m", content := "<think>a" },
         { model_name := "m", content := "</think>b" }]
    ∧ String.join ["<think>a", "</think>b"] = "<think>a</think>b"
    ∧ (OllamaConversationService.generate_response
        (fun _ _ => Except.ok
          { message := some { content := some "<think>a</think>b"
                              thinking := Option.none
                              tool_calls := Option.none }
            done := Option.none, prompt_eval_count := Option.none })
        [] { model_name := "m", messages := [] } Option.none
        Option.none).1 =
      Except.ok { model_name := "m", content := "b", thinking := some "a" }
    ∧ ("<think>a</think>b" : String) ≠ "b" := by
  refine ⟨?_, ?_, ?_, by decide⟩
  · rfl
  · rfl
  · rfl

/-- C7 witness: two plain text chunks accumulate to the one-shot
content. -/
theorem streaming_content_accumulation_witness :
    String.join (([{ message := some { content := some "hel"
                                       thinking := Option.none
                                       tool_calls := Option.none }
                     done := Option.none
                     prompt_eval_count := Option.none },
                   { message := some { content := some "lo"
                                       thinking := Option.none
                                       tool_calls := Option.none }
                     done := Option.none
                     prompt_eval_count := Option.none }].map
        (decodeResponse "m")).map GenerationResponse.content) =
      String.join ([({ message := some { content := some "hel"
                                         thinking := Option.none
                                         tool_calls := Option.none }
                       done := Option.none
                       prompt_eval_count := Option.none } : ChatResponse),
                    { message := some { content := some "lo"
                                        thinking := Option.none
                                        tool_calls := Option.none }
                      done := Option.none
                      prompt_eval_count := Option.none }].map
        (fun c => (c.message.bind ChatMessage.content).getD "")) := by
  exact (streaming_content_accumulation { model_name := "m", messages := [] }
    [{ message := some { content := some "hel"
                         thinking := Option.none
                         tool_calls := Option.none }
       done := Option.none
       prompt_eval_count := Option.none },
     { message := some { content := some "lo"
                         thinking := Option.none
                         tool_calls := Option.none }
       done := Option.none
       prompt_eval_count := Option.none }]
    (List.cons_ne_nil _ _) (by decide)).2.1

end QvOllama
